import Mathlib

set_option maxRecDepth 10000

/-!
Verification of the joystick / RGB-LED / OLED controller
(`src/AtividadeADC.c` and the near-duplicate unnamed variant, which differs
only in the marker-motion limit constants: 114/50 versus 52/24).

The embedding below transliterates the arithmetic of the C source:
machine integers become `Nat`/`Int` with explicit reduction modulo
2^16 (`uint16_t` stores) or 2^32 (`uint32_t` time arithmetic), and the
C integer division in the coordinate mapping is truncation toward zero,
`Int.tdiv`.
-/

namespace AtividadeADC

/-- Pin of the joystick push-button (`SW_PIN`). -/
def SW_PIN : Nat := 22

/-- Pin of the extra button (`BUTTON_A_PIN`). -/
def BUTTON_A_PIN : Nat := 5

/-- Pin of the green LED (`LED_G_PIN`), driven digitally. -/
def LED_G_PIN : Nat := 11

/-- Pin of the red LED (`LED_R_PIN`), driven by PWM. -/
def LED_R_PIN : Nat := 13

/-- Pin of the blue LED (`LED_B_PIN`), driven by PWM. -/
def LED_B_PIN : Nat := 12

/-- Mid-scale rest value of the 12-bit ADC (`JOYSTICK_CENTER`). -/
def JOYSTICK_CENTER : Nat := 2048

/-- Maximum 12-bit ADC reading (`ADC_MAX`). -/
def ADC_MAX : Nat := 4095

/-- Maximum 16-bit PWM level (`PWM_MAX`). -/
def PWM_MAX : Nat := 65535

/-- Modulus of a C `uint16_t` store. -/
def U16_MOD : Nat := 65536

/-- Modulus of C `uint32_t` arithmetic (`time_us_32` timestamps). -/
def U32_MOD : Nat := 4294967296

/-- One axis of the joystick-to-PWM mapping in the main loop:
`if (abs(v - JOYSTICK_CENTER) > 150) pwm = abs(v - JOYSTICK_CENTER) * 32;`
where `v` is the raw ADC reading, `abs` is over C `int`, and the product is
stored into a C `uint16_t` variable, hence the reduction modulo 2^16. -/
def axis_pwm (raw : Nat) : Nat :=
  if 150 < ((raw : Int) - (JOYSTICK_CENTER : Int)).natAbs
  then ((raw : Int) - (JOYSTICK_CENTER : Int)).natAbs * 32 % U16_MOD
  else 0

/-- `set_pwm_duty`: the level written to the PWM slice is
`pwm_enabled ? duty : 0`. -/
def set_pwm_duty (pwm_enabled : Bool) (duty : Nat) : Nat :=
  if pwm_enabled then duty else 0

/-- The PWM level actually driven for one axis reading: the loop computes
`axis_pwm` and hands it to `set_pwm_duty` gated by `pwm_enabled`. -/
def driven_level (pwm_enabled : Bool) (raw : Nat) : Nat :=
  set_pwm_duty pwm_enabled (axis_pwm raw)

/-- Horizontal marker coordinate:
`square_x = 60 + ((vry_value - JOYSTICK_CENTER) * limit) / ADC_MAX` with C
truncating division; `limit` is 114 in `AtividadeADC.c` and 52 in the
unnamed variant. -/
def square_x_of (limit : Int) (vry : Nat) : Int :=
  60 + Int.tdiv (((vry : Int) - (JOYSTICK_CENTER : Int)) * limit) (ADC_MAX : Int)

/-- Vertical marker coordinate:
`square_y = 28 - ((vrx_value - JOYSTICK_CENTER) * limit) / ADC_MAX` with C
truncating division; `limit` is 50 in `AtividadeADC.c` and 24 in the
unnamed variant. -/
def square_y_of (limit : Int) (vrx : Nat) : Int :=
  28 - Int.tdiv (((vrx : Int) - (JOYSTICK_CENTER : Int)) * limit) (ADC_MAX : Int)

/-- The process-wide mutable state shared between the interrupt handler and
the main loop: the three mode flags plus the static `last_interrupt_time`
of `gpio_callback` (a `uint32_t`). -/
structure SysState where
  led_green_state : Bool
  pwm_enabled : Bool
  border_style : Nat
  last_interrupt_time : Nat
deriving DecidableEq

/-- Startup state: indicator off, PWM enabled, border style 0, and the
static debounce timestamp zero-initialized. -/
def initState : SysState :=
  { led_green_state := false
    pwm_enabled := true
    border_style := 0
    last_interrupt_time := 0 }

/-- A digital write performed by the handler (`gpio_put`). -/
structure PinWrite where
  pin : Nat
  value : Bool
deriving DecidableEq

/-- The interrupt handler `gpio_callback`. Arguments are the firing pin and
the `time_us_32()` reading (a `uint32_t` value). The debounce test
`interrupt_time - last_interrupt_time > 200000` is `uint32_t` subtraction,
modelled as `(t + 2^32 - last) % 2^32` on representatives below 2^32.
Returns the updated state and the list of output-pin writes performed. -/
def gpio_callback (s : SysState) (gpio : Nat) (interrupt_time : Nat) :
    SysState × List PinWrite :=
  if 200000 < (interrupt_time + U32_MOD - s.last_interrupt_time) % U32_MOD then
    if gpio = SW_PIN then
      ({ s with led_green_state := !s.led_green_state
                border_style := (s.border_style + 1) % 3
                last_interrupt_time := interrupt_time },
       [{ pin := LED_G_PIN, value := !s.led_green_state }])
    else if gpio = BUTTON_A_PIN then
      ({ s with pwm_enabled := !s.pwm_enabled
                last_interrupt_time := interrupt_time }, [])
    else
      ({ s with last_interrupt_time := interrupt_time }, [])
  else (s, [])

/-- The state part of an accepted `SW_PIN` edge, written out explicitly. -/
def sw_step (s : SysState) (t : Nat) : SysState :=
  { led_green_state := !s.led_green_state
    pwm_enabled := s.pwm_enabled
    border_style := (s.border_style + 1) % 3
    last_interrupt_time := t }

/-- Outputs of one iteration of the main loop: the two PWM levels driven
and the marker coordinates. -/
structure TickOutput where
  red_level : Nat
  blue_level : Nat
  sq_x : Int
  sq_y : Int
deriving DecidableEq

/-- One main-loop iteration of `AtividadeADC.c` (limits 114 and 50):
blue PWM from `vrx`, red PWM from `vry`, marker coordinates from the raw
pair. -/
def loop_tick_wide (pwm_enabled : Bool) (vrx vry : Nat) : TickOutput :=
  { red_level := driven_level pwm_enabled vry
    blue_level := driven_level pwm_enabled vrx
    sq_x := square_x_of 114 vry
    sq_y := square_y_of 50 vrx }

/-- One main-loop iteration of the unnamed variant (limits 52 and 24). -/
def loop_tick_narrow (pwm_enabled : Bool) (vrx vry : Nat) : TickOutput :=
  { red_level := driven_level pwm_enabled vry
    blue_level := driven_level pwm_enabled vrx
    sq_x := square_x_of 52 vry
    sq_y := square_y_of 24 vrx }

/-- Folding `gpio_callback` over a list of (pin, timestamp) events. -/
def run_events : SysState → List (Nat × Nat) → SysState
  | s, [] => s
  | s, e :: rest => run_events (gpio_callback s e.1 e.2).1 rest

/-! ### Helper lemmas -/

/-- Truncating division by a positive divisor is monotone in the dividend. -/
theorem tdiv_le_tdiv_right {a b c : Int} (hc : 0 < c) (h : a ≤ b) :
    a.tdiv c ≤ b.tdiv c := by
  rcases le_or_lt 0 a with ha | ha
  · rw [Int.tdiv_eq_ediv ha hc.le, Int.tdiv_eq_ediv (le_trans ha h) hc.le]
    exact Int.ediv_le_ediv hc h
  · rcases le_or_lt 0 b with hb | hb
    · have h1 : 0 ≤ (-a).tdiv c := Int.tdiv_nonneg (by omega) hc.le
      rw [Int.neg_tdiv] at h1
      have h2 : 0 ≤ b.tdiv c := Int.tdiv_nonneg hb hc.le
      omega
    · have key : (-b).tdiv c ≤ (-a).tdiv c := by
        rw [Int.tdiv_eq_ediv (by omega) hc.le, Int.tdiv_eq_ediv (by omega) hc.le]
        exact Int.ediv_le_ediv hc (by omega)
      rw [Int.neg_tdiv, Int.neg_tdiv] at key
      omega

/-- Absolute-value bound on the scaled marker displacement. -/
theorem disp_natAbs_bound (v : Nat) (hv : v ≤ 4095) (L : Int) :
    (Int.tdiv (((v : Int) - (JOYSTICK_CENTER : Int)) * L) (ADC_MAX : Int)).natAbs
      ≤ 2048 * L.natAbs / 4095 := by
  rw [Int.natAbs_tdiv, Int.natAbs_mul]
  have habs : ((ADC_MAX : Nat) : Int).natAbs = 4095 := by decide
  rw [habs]
  have h1 : ((v : Int) - (JOYSTICK_CENTER : Int)).natAbs ≤ 2048 := by
    simp only [JOYSTICK_CENTER]
    omega
  exact Nat.div_le_div_right (Nat.mul_le_mul_right _ h1)

/-- An accepted `SW_PIN` edge performs exactly the `sw_step` state update
plus one green-LED write. -/
theorem gpio_callback_sw_accepted (s : SysState) (t : Nat)
    (ht : t < U32_MOD) (hle : s.last_interrupt_time ≤ t)
    (ha : 200000 < t - s.last_interrupt_time) :
    gpio_callback s SW_PIN t =
      (sw_step s t, [{ pin := LED_G_PIN, value := !s.led_green_state }]) := by
  unfold gpio_callback sw_step
  rw [if_pos (by simp only [U32_MOD] at *; omega), if_pos rfl]

/-- `gpio_callback` never moves `border_style` out of {0, 1, 2}. -/
theorem border_style_step (s : SysState) (g t : Nat)
    (h : s.border_style < 3) :
    (gpio_callback s g t).1.border_style < 3 := by
  unfold gpio_callback
  split
  · split
    · dsimp only
      omega
    · split
      · dsimp only
        omega
      · dsimp only
        omega
  · dsimp only
    omega

/-! ### Claims -/

/-- Claim C1 fails at raw value 0: the distance from center is 2048 > 150
and PWM is enabled, yet the level driven is 0 (the `uint16_t` store wraps
2048 * 32 = 65536 to 0), not min(2048 * 32, 65535) = 65535. -/
theorem C1_counterexample :
    150 < (((0 : Nat) : Int) - (JOYSTICK_CENTER : Int)).natAbs ∧
    driven_level true 0 ≠
      min ((((0 : Nat) : Int) - (JOYSTICK_CENTER : Int)).natAbs * 32) 65535 := by
  decide

/-- Claim C1 as amended: for raw values 1..4095 outside the deadzone with
PWM enabled, the driven level equals min(d * 32, 65535) = d * 32 where d is
the distance from center; at raw = 0 the 16-bit store wraps and the driven
level is 0; with PWM disabled the driven level is 0 for every raw value. -/
theorem C1_amended (r : Nat) (hr : r ≤ 4095) :
    (150 < ((r : Int) - (JOYSTICK_CENTER : Int)).natAbs → 1 ≤ r →
      driven_level true r =
        min (((r : Int) - (JOYSTICK_CENTER : Int)).natAbs * 32) 65535) ∧
    driven_level true 0 = 0 ∧
    driven_level false r = 0 := by
  refine ⟨?_, by decide, ?_⟩
  · intro hd h1
    have hdle : ((r : Int) - (JOYSTICK_CENTER : Int)).natAbs ≤ 2047 := by
      simp only [JOYSTICK_CENTER] at *
      omega
    simp only [driven_level, set_pwm_duty, axis_pwm, U16_MOD, if_pos hd, if_true]
    omega
  · simp only [driven_level, set_pwm_duty, if_false, Bool.false_eq_true]

/-- Witness for the amended claim C1 at the raw value 2300. -/
theorem C1_amended_witness :
    driven_level true 2300 =
      min ((((2300 : Nat) : Int) - (JOYSTICK_CENTER : Int)).natAbs * 32) 65535 :=
  (C1_amended 2300 (by decide)).1 (by decide) (by decide)

/-- Claim C2: inside the deadzone (distance from center at most 150) the
driven PWM level is 0 for either value of the PWM-enabled flag. -/
theorem C2_deadzone_zero (r : Nat) (hr : r ≤ 4095)
    (hd : ((r : Int) - (JOYSTICK_CENTER : Int)).natAbs ≤ 150) (en : Bool) :
    driven_level en r = 0 := by
  have h0 : axis_pwm r = 0 := by
    unfold axis_pwm
    rw [if_neg (by omega)]
  simp [driven_level, set_pwm_duty, h0]

/-- Witness for claim C2 at the raw value 2100 (distance 52). -/
theorem C2_deadzone_zero_witness : driven_level true 2100 = 0 :=
  C2_deadzone_zero 2100 (by decide) (by decide) true

/-- Claim C3: for every raw pair in 0..4095, the 8 x 8 marker footprint
stays inside the 128 x 64 display, in both parameter variants. -/
theorem C3_marker_in_bounds (vrx vry : Nat) (hx : vrx ≤ 4095) (hy : vry ≤ 4095) :
    (0 ≤ square_x_of 114 vry ∧ square_x_of 114 vry + 8 ≤ 128 ∧
     0 ≤ square_y_of 50 vrx ∧ square_y_of 50 vrx + 8 ≤ 64) ∧
    (0 ≤ square_x_of 52 vry ∧ square_x_of 52 vry + 8 ≤ 128 ∧
     0 ≤ square_y_of 24 vrx ∧ square_y_of 24 vrx + 8 ≤ 64) := by
  have b114 : (Int.tdiv (((vry : Int) - (JOYSTICK_CENTER : Int)) * 114)
      (ADC_MAX : Int)).natAbs ≤ 57 :=
    le_trans (disp_natAbs_bound vry hy 114) (by norm_num)
  have b50 : (Int.tdiv (((vrx : Int) - (JOYSTICK_CENTER : Int)) * 50)
      (ADC_MAX : Int)).natAbs ≤ 25 :=
    le_trans (disp_natAbs_bound vrx hx 50) (by norm_num)
  have b52 : (Int.tdiv (((vry : Int) - (JOYSTICK_CENTER : Int)) * 52)
      (ADC_MAX : Int)).natAbs ≤ 26 :=
    le_trans (disp_natAbs_bound vry hy 52) (by norm_num)
  have b24 : (Int.tdiv (((vrx : Int) - (JOYSTICK_CENTER : Int)) * 24)
      (ADC_MAX : Int)).natAbs ≤ 12 :=
    le_trans (disp_natAbs_bound vrx hx 24) (by norm_num)
  simp only [square_x_of, square_y_of]
  omega

/-- Witness for claim C3 at the raw pair (0, 4095). -/
theorem C3_marker_in_bounds_witness :
    (0 ≤ square_x_of 114 4095 ∧ square_x_of 114 4095 + 8 ≤ 128 ∧
     0 ≤ square_y_of 50 0 ∧ square_y_of 50 0 + 8 ≤ 64) ∧
    (0 ≤ square_x_of 52 4095 ∧ square_x_of 52 4095 + 8 ≤ 128 ∧
     0 ≤ square_y_of 24 0 ∧ square_y_of 24 0 + 8 ≤ 64) :=
  C3_marker_in_bounds 0 4095 (by decide) (by decide)

/-- Claim C4: an event at most 200000 microseconds after the last accepted
edge is discarded with no state change and no pin write, whatever the pin;
an event strictly later than that is accepted, updating the last-accepted
timestamp. Timestamps are `uint32_t` readings, hence below 2^32. -/
theorem C4_debounce (s : SysState) (g t : Nat)
    (ht : t < U32_MOD) (hle : s.last_interrupt_time ≤ t) :
    (t - s.last_interrupt_time ≤ 200000 → gpio_callback s g t = (s, [])) ∧
    (200000 < t - s.last_interrupt_time →
      (gpio_callback s g t).1.last_interrupt_time = t) := by
  constructor
  · intro h
    unfold gpio_callback
    rw [if_neg (by simp only [U32_MOD] at *; omega)]
  · intro h
    unfold gpio_callback
    rw [if_pos (by simp only [U32_MOD] at *; omega)]
    split
    · rfl
    · split
      · rfl
      · rfl

/-- Witness for claim C4: from the initial state, an event at 100000 is
discarded and an event at 300000 is accepted. -/
theorem C4_debounce_witness :
    gpio_callback initState 22 100000 = (initState, []) ∧
    (gpio_callback initState 22 300000).1.last_interrupt_time = 300000 :=
  ⟨(C4_debounce initState 22 100000 (by decide) (by decide)).1 (by decide),
   (C4_debounce initState 22 300000 (by decide) (by decide)).2 (by decide)⟩

/-- Claim C5: three consecutive accepted mode/select edges return
`border_style` to its original value (the first moves it to
(style + 1) mod 3), and each accepted edge inverts the green indicator,
so two edges restore it and three leave it inverted. -/
theorem C5_mode_cycle (s : SysState) (t1 t2 t3 : Nat)
    (hb : s.border_style < 3) (h3 : t3 < U32_MOD)
    (hl : s.last_interrupt_time ≤ t1) (h12 : t1 ≤ t2) (h23 : t2 ≤ t3)
    (a1 : 200000 < t1 - s.last_interrupt_time)
    (a2 : 200000 < t2 - t1) (a3 : 200000 < t3 - t2) :
    (gpio_callback s SW_PIN t1).1.border_style = (s.border_style + 1) % 3 ∧
    (gpio_callback s SW_PIN t1).1.led_green_state = !s.led_green_state ∧
    (gpio_callback (gpio_callback s SW_PIN t1).1 SW_PIN t2).1.led_green_state
      = s.led_green_state ∧
    (gpio_callback (gpio_callback (gpio_callback s SW_PIN t1).1 SW_PIN t2).1
      SW_PIN t3).1.led_green_state = !s.led_green_state ∧
    (gpio_callback (gpio_callback (gpio_callback s SW_PIN t1).1 SW_PIN t2).1
      SW_PIN t3).1.border_style = s.border_style := by
  rw [gpio_callback_sw_accepted s t1 (by omega) hl a1]
  dsimp only
  rw [gpio_callback_sw_accepted (sw_step s t1) t2 (by omega) (by exact h12)
    (by exact a2)]
  dsimp only
  rw [gpio_callback_sw_accepted (sw_step (sw_step s t1) t2) t3 h3
    (by exact h23) (by exact a3)]
  dsimp only
  refine ⟨rfl, rfl, ?_, ?_, ?_⟩
  · simp [sw_step]
  · simp [sw_step]
  · simp only [sw_step]
    omega

/-- Witness for claim C5: three accepted edges at 300000, 600000, 900000
from the initial state. -/
theorem C5_mode_cycle_witness :
    (gpio_callback initState SW_PIN 300000).1.border_style
      = (initState.border_style + 1) % 3 ∧
    (gpio_callback initState SW_PIN 300000).1.led_green_state
      = !initState.led_green_state ∧
    (gpio_callback (gpio_callback initState SW_PIN 300000).1 SW_PIN
      600000).1.led_green_state = initState.led_green_state ∧
    (gpio_callback (gpio_callback (gpio_callback initState SW_PIN 300000).1
      SW_PIN 600000).1 SW_PIN 900000).1.led_green_state
      = !initState.led_green_state ∧
    (gpio_callback (gpio_callback (gpio_callback initState SW_PIN 300000).1
      SW_PIN 600000).1 SW_PIN 900000).1.border_style
      = initState.border_style :=
  C5_mode_cycle initState 300000 600000 900000 (by decide) (by decide)
    (by decide) (by decide) (by decide) (by decide) (by decide) (by decide)

/-- Claim C6: an accepted BUTTON_A edge inverts only the PWM-enabled flag
and refreshes the last-accepted timestamp; the green indicator and the
border style are unchanged and no output pin is written. -/
theorem C6_secondary_only_pwm (s : SysState) (t : Nat)
    (ht : t < U32_MOD) (hle : s.last_interrupt_time ≤ t)
    (ha : 200000 < t - s.last_interrupt_time) :
    gpio_callback s BUTTON_A_PIN t =
      ({ led_green_state := s.led_green_state
         pwm_enabled := !s.pwm_enabled
         border_style := s.border_style
         last_interrupt_time := t }, []) := by
  unfold gpio_callback
  rw [if_pos (by simp only [U32_MOD] at *; omega), if_neg (by decide),
    if_pos rfl]

/-- Witness for claim C6 at timestamp 300000 from the initial state. -/
theorem C6_secondary_only_pwm_witness :
    gpio_callback initState BUTTON_A_PIN 300000 =
      ({ led_green_state := initState.led_green_state
         pwm_enabled := !initState.pwm_enabled
         border_style := initState.border_style
         last_interrupt_time := 300000 }, []) :=
  C6_secondary_only_pwm initState 300000 (by decide) (by decide) (by decide)

/-- Claim C7: each marker coordinate is monotone in its driving raw value
(the horizontal one non-decreasing, the vertical one non-increasing), in
both parameter variants, and at raw 2048 each equals its offset. -/
theorem C7_monotone_center (r1 r2 : Nat) (h : r1 ≤ r2) :
    square_x_of 114 r1 ≤ square_x_of 114 r2 ∧
    square_x_of 52 r1 ≤ square_x_of 52 r2 ∧
    square_y_of 50 r2 ≤ square_y_of 50 r1 ∧
    square_y_of 24 r2 ≤ square_y_of 24 r1 ∧
    square_x_of 114 2048 = 60 ∧ square_x_of 52 2048 = 60 ∧
    square_y_of 50 2048 = 28 ∧ square_y_of 24 2048 = 28 := by
  have key : ∀ L : Int, 0 ≤ L →
      Int.tdiv (((r1 : Int) - (JOYSTICK_CENTER : Int)) * L) (ADC_MAX : Int) ≤
      Int.tdiv (((r2 : Int) - (JOYSTICK_CENTER : Int)) * L) (ADC_MAX : Int) := by
    intro L hL
    refine tdiv_le_tdiv_right (by decide) ?_
    have hr : (r1 : Int) ≤ (r2 : Int) := by omega
    exact mul_le_mul_of_nonneg_right (by omega) hL
  refine ⟨?_, ?_, ?_, ?_, by decide, by decide, by decide, by decide⟩
  · simp only [square_x_of]
    exact add_le_add_left (key 114 (by norm_num)) 60
  · simp only [square_x_of]
    exact add_le_add_left (key 52 (by norm_num)) 60
  · simp only [square_y_of]
    exact sub_le_sub_left (key 50 (by norm_num)) 28
  · simp only [square_y_of]
    exact sub_le_sub_left (key 24 (by norm_num)) 28

/-- Witness for claim C7 at the raw pair 0 and 4095. -/
theorem C7_monotone_center_witness :
    square_x_of 114 0 ≤ square_x_of 114 4095 :=
  (C7_monotone_center 0 4095 (by decide)).1

/-- Claim C8: at the raw sample vrx = 4095, vry = 2048 with PWM enabled,
the blue level driven is 2047 * 32 = 65504 and the red level is 0. -/
theorem C8_scenario :
    (loop_tick_wide true 4095 2048).blue_level = 65504 ∧
    (loop_tick_wide true 4095 2048).red_level = 0 ∧
    (loop_tick_narrow true 4095 2048).blue_level = 65504 ∧
    (loop_tick_narrow true 4095 2048).red_level = 0 := by
  decide

/-- Claim C9: from the startup state, every sequence of handler events
leaves `border_style` in {0, 1, 2}. -/
theorem C9_border_invariant (evs : List (Nat × Nat)) :
    (run_events initState evs).border_style < 3 := by
  suffices h : ∀ s : SysState, s.border_style < 3 →
      (run_events s evs).border_style < 3 from h initState (by decide)
  induction evs with
  | nil => intro s hs; exact hs
  | cons e rest ih =>
      intro s hs
      exact ih _ (border_style_step s e.1 e.2 hs)

/-- Claim C10: at raw value 0 (distance 2048 from center, outside the
deadzone) the product 2048 * 32 = 65536 wraps in the `uint16_t` store to 0,
so the level driven is 0, strictly darker than the neighbouring raw
value 1 which drives 65504. -/
theorem C10_wrap_at_zero :
    150 < (((0 : Nat) : Int) - (JOYSTICK_CENTER : Int)).natAbs ∧
    axis_pwm 0 = 0 ∧
    driven_level true 0 = 0 ∧
    driven_level true 1 = 65504 ∧
    driven_level true 0 < driven_level true 1 := by
  decide

end AtividadeADC
